import Mathlib

/-
Shallow embedding of the political-news sentiment pipeline implemented by the
three scripts of this repository:

  * `ProjectCodeTest1.py` — page-scrape source adapter + pretrained-classifier
    scorer (namespace `Test1`);
  * `ProjectCodeTest2.py` — RSS-feed source adapter + paragraph-concatenation
    extractor + VADER scorer (namespace `Test2`);
  * `pro1.py` — RSS-feed source adapter + newspaper3k extractor + VADER scorer
    + one-way ANOVA comparison (namespace `Pro1`).

Python strings are modelled as `List Char` (a Python `str` is a sequence of
code points, and slicing/`len` operate on code points).  Calls into the outside
world (HTTP fetches, feed parsing, article download/parse, the sentiment
back-ends) are modelled as explicit parameters of type `… → Except String …`:
an `Except.error` value stands for the call raising a Python exception, whose
propagation or catching below mirrors the scripts' `try`/`except` structure
exactly.
-/

deriving instance DecidableEq for Except

namespace NewsBias

/-- Python slicing `t[:B]`: the first `B` characters of `t` (all of `t` when it
is shorter).  This is the truncation applied by `ProjectCodeTest1.py` line 36
(`article.text[:1000]`) and line 47 (`text[:512]`). -/
def truncateText (B : Nat) (t : List Char) : List Char := t.take B

/-- Left-to-right evaluation of a Python list comprehension (or a pandas
`Series.apply`) whose body may raise: the first exception aborts the whole
construction and propagates; on success the results are collected in order. -/
def mapExcept (f : α → Except String β) : List α → Except String (List β)
  | [] => .ok []
  | a :: as =>
    match f a with
    | .error e => .error e
    | .ok b =>
      match mapExcept f as with
      | .error e => .error e
      | .ok bs => .ok (b :: bs)

/-- Helper for `pySplit`: scans `s`, cutting at each occurrence of the
separator `sep`, with `acc` the piece accumulated since the last cut.  The
`fuel` argument only makes the recursion structural: every step consumes at
least one character, so `fuel = s.length` never runs out. -/
def pySplitAux (sep : List Char) : Nat → List Char → List Char → List (List Char)
  | _, [], acc => [acc]
  | 0, s, acc => [acc ++ s]
  | fuel + 1, c :: rest, acc =>
    if sep ≠ [] ∧ sep.isPrefixOf (c :: rest) then
      acc :: pySplitAux sep fuel (List.drop (sep.length - 1) rest) []
    else
      pySplitAux sep fuel rest (acc ++ [c])

/-- Python `s.split(sep)` for a non-empty separator string: greedy
left-to-right split, preserving empty pieces (`"a//".split("//") = ["a", ""]`).
Used to model the origin computation `url.split("//")[1].split("/")[0]` of
`ProjectCodeTest1.py` line 28. -/
def pySplit (sep s : List Char) : List (List Char) := pySplitAux sep s.length s []

/-- Python list indexing `l[i]`, which raises `IndexError` when `i` is out of
range. -/
def pyGetItem (l : List (List Char)) (i : Nat) : Except String (List Char) :=
  if h : i < l.length then .ok (l.get ⟨i, h⟩) else .error "IndexError"

/-- Python `' '.join(paras)`. -/
def joinSpace (paras : List (List Char)) : List Char :=
  List.intercalate " ".data paras

/-- Python substring containment `sub in s` for strings. -/
def containsSub (sub : List Char) : List Char → Bool
  | [] => sub.isEmpty
  | c :: rest => sub.isPrefixOf (c :: rest) || containsSub sub rest

end NewsBias

namespace NewsBias.Test1

/-- The outside world seen by `ProjectCodeTest1.py`'s `extract_articles`:
`listing` is the combined `requests.get(url)` + BeautifulSoup step, yielding
the `href` attributes of all anchor tags of the listing page (or raising);
`article` is `newspaper.Article(link).download(); .parse()`, yielding the
article's text for a link (or raising). -/
structure PageWorld where
  listing : Except String (List (List Char))
  article : List Char → Except String (List Char)

/-- Line 27: `links = list(set(a['href'] for a in soup.find_all('a', href=True)
if '/politics/' in a['href']))` — keep the hrefs containing `/politics/` and
deduplicate them with set semantics.  CPython's set iteration order is
unspecified; `List.dedup` fixes one order of the distinct elements, and every
property proved below about this list (membership, `Nodup`, length bound) is
order-independent. -/
def candidateLinks (hrefs : List (List Char)) : List (List Char) :=
  (hrefs.filter (fun h => containsSub "/politics/".data h)).dedup

/-- Line 28's URL resolution: a link is kept verbatim when it starts with
`http`, otherwise it is prefixed with `https://` and the listing page's domain
`url.split("//")[1].split("/")[0]`.  The indexing raises `IndexError` when
`url` contains no `//`, and the exception propagates like any other. -/
def resolveLink (url link : List Char) : Except String (List Char) :=
  if ("http".data).isPrefixOf link then .ok link
  else
    match pyGetItem (pySplit "//".data url) 1 with
    | .error e => .error e
    | .ok afterScheme =>
      match pyGetItem (pySplit "/".data afterScheme) 0 with
      | .error e => .error e
      | .ok domain => .ok ("https://".data ++ domain ++ link)

/-- Lines 24–28 of `extract_articles`: fetch the listing page (an exception
here propagates out of the function), filter and deduplicate the candidate
hrefs, truncate the list to `max_articles`, and resolve each survivor to an
absolute URL (the list comprehension propagates a resolution exception). -/
def resolvedLinks (w : PageWorld) (url : List Char) (max_articles : Nat) :
    Except String (List (List Char)) :=
  match w.listing with
  | .error e => .error e
  | .ok hrefs => mapExcept (resolveLink url) ((candidateLinks hrefs).take max_articles)

/-- Lines 30–39 of `extract_articles`: download and parse each resolved link
inside a per-link `try`/`except` — a link whose extraction raises is skipped
(`print` + continue), a successful one contributes `article.text[:1000]`.
The loop-with-append is rendered as `List.filterMap`. -/
def extract_articles (w : PageWorld) (url : List Char) (max_articles : Nat) :
    Except String (List (List Char)) :=
  match resolvedLinks w url max_articles with
  | .error e => .error e
  | .ok links =>
    .ok (links.filterMap (fun link => (w.article link).toOption.map (truncateText 1000)))

/-- One row of the `data` list built at lines 48–53: outlet name, the (already
1000-truncated) article text, and the classifier's label and confidence. -/
structure Row where
  outlet : List Char
  text : List Char
  label : List Char
  score : ℚ
deriving DecidableEq

/-- Lines 46–55, the body of the inner loop: `classifier(text[:512])[0]` inside
a per-text `try`/`except`; on success a row is appended, on an exception the
text is skipped.  `classifier` abstracts the pretrained sentiment pipeline,
returning a (label, score) pair or raising. -/
def scoreText (classifier : List Char → Except String (List Char × ℚ))
    (outlet text : List Char) : Option Row :=
  match classifier (text.take 512) with
  | .error _ => none
  | .ok (label, score) => some ⟨outlet, text, label, score⟩

/-- Lines 42–55, the top-level collection loop: for each configured outlet,
`texts = extract_articles(url)` (an exception here is uncaught and aborts the
whole script), then each text is classified with per-text error isolation and
the surviving rows are appended to `data`. -/
def collectData (world : List Char → PageWorld)
    (classifier : List Char → Except String (List Char × ℚ)) :
    List (List Char × List Char) → List Row → Except String (List Row)
  | [], data => .ok data
  | (outlet, url) :: rest, data =>
    match extract_articles (world url) url 10 with
    | .error e => .error e
    | .ok texts =>
      collectData world classifier rest (data ++ texts.filterMap (scoreText classifier outlet))

/-- Lines 13–17: the configured outlets and their listing pages. -/
def news_sites : List (List Char × List Char) :=
  [("CNN".data, "https://edition.cnn.com/politics".data),
   ("Fox News".data, "https://www.foxnews.com/politics".data),
   ("NYT".data, "https://www.nytimes.com/section/politics".data)]

end NewsBias.Test1

namespace NewsBias

/-- One entry of a parsed RSS feed, as surfaced by `feedparser`: the fields
`link`, `title`, `published` read verbatim by both feed variants. -/
structure FeedEntry where
  link : List Char
  title : List Char
  published : List Char
deriving DecidableEq

/-- The dict `{'title': …, 'text': …, 'published': …}` appended by the
`fetch_articles` of `ProjectCodeTest2.py` (lines 40–44) and of `pro1.py`
(lines 56–60). -/
structure ArticleDict where
  title : List Char
  text : List Char
  published : List Char
deriving DecidableEq

end NewsBias

namespace NewsBias.Test2

/-- The outside world seen by `ProjectCodeTest2.py`'s `fetch_articles`:
`feed` is `feedparser.parse(feed_url).entries` (modelled as fallible so that an
exception raised by the parse call propagates, mirroring the absence of any
`try`/`except` around it); `page` is `requests.get(entry.link, timeout=10)` +
BeautifulSoup `find_all('p')`, yielding the text content of each paragraph
element of the article page, or raising. -/
structure FeedWorld where
  feed : Except String (List FeedEntry)
  page : List Char → Except String (List (List Char))

/-- Lines 30–47 of `ProjectCodeTest2.py`: take the first `max_articles` feed
entries in feed order, and for each entry — inside a per-entry `try`/`except` —
fetch the page, join all paragraph texts with spaces, and append a dict; an
entry whose fetch raises is skipped.  No deduplication and no emptiness check
occurs anywhere. -/
def fetch_articles (w : FeedWorld) (max_articles : Nat) :
    Except String (List ArticleDict) :=
  match w.feed with
  | .error e => .error e
  | .ok entries =>
    .ok ((entries.take max_articles).filterMap (fun entry =>
      (w.page entry.link).toOption.map (fun paras =>
        ⟨entry.title, joinSpace paras, entry.published⟩)))

end NewsBias.Test2

namespace NewsBias.Pro1

/-- The outside world seen by `pro1.py`'s `fetch_articles`: `feed` is
`feedparser.parse(feed_url).entries` (fallible, as in `Test2.FeedWorld`);
`article` is `newspaper.Article(entry.link).download(); .parse()`, yielding the
extracted text or raising. -/
structure ArticleWorld where
  feed : Except String (List FeedEntry)
  article : List Char → Except String (List Char)

/-- Lines 43–63 of `pro1.py`: take the first `max_articles` feed entries in
feed order and, inside a per-entry `try`/`except`, download and parse each
linked article; an entry whose extraction raises is skipped, a successful one
contributes its full (untruncated) text.  No deduplication and no emptiness
check occurs. -/
def fetch_articles (w : ArticleWorld) (max_articles : Nat) :
    Except String (List ArticleDict) :=
  match w.feed with
  | .error e => .error e
  | .ok entries =>
    .ok ((entries.take max_articles).filterMap (fun entry =>
      (w.article entry.link).toOption.map (fun text =>
        ⟨entry.title, text, entry.published⟩)))

/-- Lines 35–39 of `pro1.py`: the configured outlets and their feed URLs. -/
def feeds : List (List Char × List Char) :=
  [("CNN".data, "http://rss.cnn.com/rss/cnn_allpolitics.rss".data),
   ("Fox News".data, "http://feeds.foxnews.com/foxnews/politics".data),
   ("NYT".data, "https://rss.nytimes.com/services/xml/rss/nyt/Politics.xml".data)]

/-- One row of the `records` list built at lines 66–74 of `pro1.py` (and hence
one row of the DataFrame `df`). -/
structure Rec where
  source : List Char
  title : List Char
  text : List Char
  published : List Char
deriving DecidableEq

/-- Lines 66–74, the top-level collection loop: for each configured outlet,
iterate over `fetch_articles(url, max_articles=20)` (an exception escaping
`fetch_articles` is uncaught and aborts the whole script) and append one record
per article. -/
def collectRecords (world : List Char → ArticleWorld) :
    List (List Char × List Char) → List Rec → Except String (List Rec)
  | [], records => .ok records
  | (source, url) :: rest, records =>
    match fetch_articles (world url) 20 with
    | .error e => .error e
    | .ok arts =>
      collectRecords world rest
        (records ++ arts.map (fun a => ⟨source, a.title, a.text, a.published⟩))

/-- A record together with the `sentiment` column added at line 83. -/
structure ScoredRec where
  source : List Char
  title : List Char
  text : List Char
  published : List Char
  sentiment : ℚ
deriving DecidableEq

/-- Line 83: `df['sentiment'] = df['text'].apply(lambda txt:
sia.polarity_scores(txt)['compound'])`.  The VADER analyzer is abstracted as
`sia : List Char → Except String ℚ`; `Series.apply` evaluates row by row with
no `try`/`except`, so the first exception aborts the whole statement and no
sentiment column is produced at all. -/
def addSentiment (sia : List Char → Except String ℚ) (records : List Rec) :
    Except String (List ScoredRec) :=
  mapExcept (fun r => (sia r.text).map (fun v =>
    ({ source := r.source, title := r.title, text := r.text,
       published := r.published, sentiment := v } : ScoredRec))) records

/-- The group keys of `df.groupby('source')` at line 95: the distinct values of
the `source` column.  pandas iterates groups in sorted key order; `List.dedup`
fixes instead one order of the same distinct keys, and every property proved
below (key membership, number of groups, group contents) is order-independent.
An outlet contributing no rows yields no key — `groupby` only sees values
present in the column. -/
def groupKeys (rows : List ScoredRec) : List (List Char) :=
  (rows.map (·.source)).dedup

/-- The `sentiment` column of one `groupby` group: the sentiment values of the
rows whose `source` equals `k`, in row order. -/
def sentimentGroup (rows : List ScoredRec) (k : List Char) : List ℚ :=
  (rows.filter (fun r => r.source == k)).map (·.sentiment)

/-- Line 95: `groups = [group['sentiment'].values for _, group in
df.groupby('source')]` — one sentiment list per distinct source. -/
def sentimentGroups (rows : List ScoredRec) : List (List ℚ) :=
  (groupKeys rows).map (sentimentGroup rows)

/-- Arithmetic mean of a list of rationals (0 for the empty list, where ℚ
division by zero is 0). -/
def mean (l : List ℚ) : ℚ := l.sum / l.length

/-- The one-way ANOVA F-statistic over the given groups, computed in exact
rational arithmetic: between-group mean square over within-group mean square.
Degenerate inputs on which SciPy would emit NaN/warnings (a zero denominator)
fall back to ℚ's total division by zero. -/
def fStat (gs : List (List ℚ)) : ℚ :=
  let N : ℚ := ((gs.map List.length).sum : ℕ)
  let k : ℚ := (gs.length : ℕ)
  let grand : ℚ := (gs.map List.sum).sum / N
  let ssb : ℚ := (gs.map (fun g => (g.length : ℚ) * (mean g - grand) ^ 2)).sum
  let ssw : ℚ := (gs.map (fun g => (g.map (fun x => (x - mean g) ^ 2)).sum)).sum
  (ssb / (k - 1)) / (ssw / (N - k))

/-- `scipy.stats.f_oneway(*groups)` at line 96: raises a `TypeError` when
fewer than two sample groups are supplied, otherwise returns the F-statistic
and a p-value.  The p-value is the survival function of the F-distribution at
the statistic — a transcendental quantity modelled by the parameter `sf`; no
claim below depends on its value. -/
def f_oneway (sf : ℚ → ℚ) (samples : List (List ℚ)) : Except String (ℚ × ℚ) :=
  if samples.length < 2 then .error "at least two inputs are required"
  else .ok (fStat samples, sf (fStat samples))

/-- Lines 95–96 combined: group the scored rows by source and hand the groups
to `f_oneway`, with no precondition check of any kind in between; an error
raised by `f_oneway` is uncaught and aborts the script. -/
def anovaResults (sf : ℚ → ℚ) (rows : List ScoredRec) : Except String (ℚ × ℚ) :=
  f_oneway sf (sentimentGroups rows)

/-- Lines 98–101: the significance verdict `p_value < 0.05` (fixed threshold). -/
def significant (p : ℚ) : Bool := p < 5 / 100

end NewsBias.Pro1

namespace NewsBias

/-- A classifier stub that succeeds on every input with a fixed label and
confidence. -/
def exClassifier : List Char → Except String (List Char × ℚ) :=
  fun _ => .ok ("POSITIVE".data, 99 / 100)

/-- A page-scrape world in which the CNN listing fetch raises a connection
error while every other listing and every article fetch succeeds. -/
def exWorldC1 : List Char → Test1.PageWorld := fun url =>
  if url == "https://edition.cnn.com/politics".data then
    ⟨.error "connection error", fun _ => .ok "some text".data⟩
  else
    ⟨.ok ["/politics/a".data], fun _ => .ok "some text".data⟩

/-- A VADER stub that scores every text 0. -/
def exSia : List Char → Except String ℚ := fun _ => .ok 0

/-- A feed world for `pro1.py` in which the Fox News feed parses successfully
but contains no entries, while the other feeds yield one extractable article
each. -/
def exWorldC2 : List Char → Pro1.ArticleWorld := fun url =>
  if url == "http://feeds.foxnews.com/foxnews/politics".data then
    ⟨.ok [], fun _ => .ok "body".data⟩
  else
    ⟨.ok [⟨"x".data, "t".data, "p".data⟩], fun _ => .ok "body".data⟩

/-- The records the `pro1.py` collection loop produces under `exWorldC2`:
one CNN row and one NYT row, nothing for Fox News. -/
def exRecsC2 : List Pro1.Rec :=
  [⟨"CNN".data, "t".data, "body".data, "p".data⟩,
   ⟨"NYT".data, "t".data, "body".data, "p".data⟩]

/-- `exRecsC2` after the sentiment column is added by `exSia`. -/
def exScoredC2 : List Pro1.ScoredRec :=
  [⟨"CNN".data, "t".data, "body".data, "p".data, 0⟩,
   ⟨"NYT".data, "t".data, "body".data, "p".data, 0⟩]

/-- A scored DataFrame whose rows all come from a single outlet. -/
def exSingleScored : List Pro1.ScoredRec :=
  [⟨"CNN".data, "t".data, "x".data, "p".data, 1 / 2⟩]

/-- A page-scrape world whose single candidate article parses successfully to
the empty string. -/
def exWorldC4 : Test1.PageWorld :=
  ⟨.ok ["http://e.cnn/politics/a".data], fun _ => .ok []⟩

/-- A feed entry, used twice in a row by `exWorldC5`. -/
def dupEntry : FeedEntry := ⟨"http://x/politics/a".data, "T".data, "P".data⟩

/-- A feed world for `pro1.py` whose feed lists the very same entry twice. -/
def exWorldC5 : Pro1.ArticleWorld :=
  ⟨.ok [dupEntry, dupEntry], fun _ => .ok "body".data⟩

/-- A VADER stub that raises on the text `"t3"` and scores everything else 0. -/
def siaC6 : List Char → Except String ℚ :=
  fun t => if t == "t3".data then .error "scorer failure" else .ok 0

/-- Five collected records whose texts are `"t1"` … `"t5"`; `siaC6` raises on
the third. -/
def recsC6 : List Pro1.Rec :=
  [⟨"CNN".data, "a".data, "t1".data, "p".data⟩,
   ⟨"CNN".data, "b".data, "t2".data, "p".data⟩,
   ⟨"CNN".data, "c".data, "t3".data, "p".data⟩,
   ⟨"CNN".data, "d".data, "t4".data, "p".data⟩,
   ⟨"CNN".data, "e".data, "t5".data, "p".data⟩]

/-- A classifier stub that raises on the text `"t3"` and succeeds on
everything else. -/
def cC6 : List Char → Except String (List Char × ℚ) :=
  fun t => if t == "t3".data then .error "scorer failure" else .ok ("POSITIVE".data, 1)

/-- A page-scrape world with one candidate link (already absolute) whose
article text is `"t"`. -/
def exWorldC9 : Test1.PageWorld :=
  ⟨.ok ["http://x/politics/a".data], fun _ => .ok "t".data⟩

/-- A `Test2` feed world with one entry and one one-paragraph article page. -/
def exFeedWorldC9 : Test2.FeedWorld :=
  ⟨.ok [⟨"l".data, "T".data, "P".data⟩], fun _ => .ok ["para".data]⟩

/-- A `pro1.py` feed world with one entry and one extractable article. -/
def exArticleWorldC9 : Pro1.ArticleWorld :=
  ⟨.ok [⟨"l".data, "T".data, "P".data⟩], fun _ => .ok "body".data⟩

end NewsBias

namespace NewsBias

/-- A successful `mapExcept` run produces exactly one output per input. -/
theorem mapExcept_ok_length (f : α → Except String β) :
    ∀ (l : List α) (l' : List β), mapExcept f l = .ok l' → l'.length = l.length := by
  intro l
  induction l with
  | nil =>
    intro l' h
    simp only [mapExcept, Except.ok.injEq] at h
    subst h
    rfl
  | cons a as ih =>
    intro l' h
    simp only [mapExcept] at h
    cases hfa : f a <;> rw [hfa] at h
    · exact absurd h (by simp)
    case ok b =>
      cases hrec : mapExcept f as <;> rw [hrec] at h
      · exact absurd h (by simp)
      case ok bs =>
        simp only [Except.ok.injEq] at h
        subst h
        simp [ih bs hrec]

/-- If any element of the list makes `f` raise, the whole `mapExcept` raises
(whichever exception comes first in evaluation order). -/
theorem mapExcept_error_of_mem (f : α → Except String β) :
    ∀ (l : List α) (a : α) (e : String), a ∈ l → f a = .error e →
      ∃ e', mapExcept f l = .error e' := by
  intro l
  induction l with
  | nil =>
    intro a e ha
    exact absurd ha (List.not_mem_nil a)
  | cons b bs ih =>
    intro a e ha hfa
    rcases List.mem_cons.mp ha with rfl | hmem
    · exact ⟨e, by simp [mapExcept, hfa]⟩
    · cases hfb : f b with
      | error e'' => exact ⟨e'', by simp [mapExcept, hfb]⟩
      | ok v =>
        obtain ⟨e', he'⟩ := ih a e hmem hfa
        exact ⟨e', by simp [mapExcept, hfb, he']⟩

/-- C8 — Truncation exactness: for every extracted text and every character
bound `B`, the truncation `t[:B]` used by the normalization step
(`ProjectCodeTest1.py` line 36) yields a text of length exactly `B` when the
input is longer than `B`, leaves shorter input unchanged, and cuts at a pure
character boundary (the output concatenated with the dropped suffix restores
the input, so no word-boundary adjustment happens). -/
theorem c8_truncation_exact (B : Nat) (t : List Char) :
    (B < t.length → (truncateText B t).length = B) ∧
    (t.length ≤ B → truncateText B t = t) ∧
    truncateText B t ++ t.drop B = t := by
  refine ⟨?_, ?_, ?_⟩
  · intro h
    simp only [truncateText, List.length_take]
    omega
  · intro h
    simp [truncateText, List.take_of_length_le h]
  · simp [truncateText, List.take_append_drop]

/-- Witness for C8 at `B = 3` and `B = 9` on the five-character text
`"hello"`. -/
theorem c8_witness :
    (truncateText 3 "hello".data).length = 3 ∧
    truncateText 9 "hello".data = "hello".data :=
  ⟨(c8_truncation_exact 3 "hello".data).1 (by decide),
   (c8_truncation_exact 9 "hello".data).2.1 (by decide)⟩

/-- C7 — Classifier-strategy input ceiling: the collection loop of
`ProjectCodeTest1.py` is observationally independent of what the classifier
does on inputs longer than 512 characters: two classifiers that agree on all
texts of length at most 512 produce identical runs.  Hence the text actually
passed to the classifier is always at most the first 512 characters of the
article text, truncated before the classifier is invoked. -/
theorem c7_classifier_input_ceiling
    (world : List Char → Test1.PageWorld)
    (c₁ c₂ : List Char → Except String (List Char × ℚ))
    (h : ∀ t : List Char, t.length ≤ 512 → c₁ t = c₂ t) :
    ∀ (sites : List (List Char × List Char)) (data : List Test1.Row),
      Test1.collectData world c₁ sites data = Test1.collectData world c₂ sites data := by
  have hs : ∀ o t, Test1.scoreText c₁ o t = Test1.scoreText c₂ o t := by
    intro o t
    unfold Test1.scoreText
    rw [h (t.take 512) (by rw [List.length_take]; exact Nat.min_le_left _ _)]
  intro sites
  induction sites with
  | nil => intro data; rfl
  | cons p rest ih =>
    obtain ⟨o, u⟩ := p
    intro data
    cases hx : Test1.extract_articles (world u) u 10 with
    | error e => simp [Test1.collectData, hx]
    | ok texts =>
      simp only [Test1.collectData, hx]
      rw [show Test1.scoreText c₁ o = Test1.scoreText c₂ o from funext (hs o)]
      exact ih _

/-- Witness for C7: a concrete run applied to two (identical, hence agreeing
below 512 characters) classifier stubs. -/
theorem c7_witness :
    Test1.collectData (fun _ => exWorldC4) exClassifier
        [("CNN".data, "u".data)] [] =
      Test1.collectData (fun _ => exWorldC4) exClassifier
        [("CNN".data, "u".data)] [] :=
  c7_classifier_input_ceiling (fun _ => exWorldC4) exClassifier exClassifier
    (fun _ _ => rfl) [("CNN".data, "u".data)] []

/-- C9 — Candidate limit bound: for every positive limit `L`, each of the
three source-adapter variants produces at most `L` candidates — the
page-scrape variant's resolved link list (`ProjectCodeTest1.py` line 28) has
at most `L` elements, and so do the article lists produced by all three
`fetch`/`extract` functions. -/
theorem c9_candidate_limit (L : Nat) (_hL : 0 < L) :
    (∀ (w : Test1.PageWorld) (url : List Char) (ls : List (List Char)),
      Test1.resolvedLinks w url L = .ok ls → ls.length ≤ L) ∧
    (∀ (w : Test1.PageWorld) (url : List Char) (arts : List (List Char)),
      Test1.extract_articles w url L = .ok arts → arts.length ≤ L) ∧
    (∀ (w : Test2.FeedWorld) (arts : List ArticleDict),
      Test2.fetch_articles w L = .ok arts → arts.length ≤ L) ∧
    (∀ (w : Pro1.ArticleWorld) (arts : List ArticleDict),
      Pro1.fetch_articles w L = .ok arts → arts.length ≤ L) := by
  have h1 : ∀ (w : Test1.PageWorld) (url : List Char) (ls : List (List Char)),
      Test1.resolvedLinks w url L = .ok ls → ls.length ≤ L := by
    intro w url ls h
    unfold Test1.resolvedLinks at h
    cases hw : w.listing <;> rw [hw] at h
    · exact absurd h (by simp)
    case ok hrefs =>
      rw [mapExcept_ok_length _ _ _ h]
      exact List.length_take_le _ _
  refine ⟨h1, ?_, ?_, ?_⟩
  · intro w url arts h
    unfold Test1.extract_articles at h
    cases hr : Test1.resolvedLinks w url L <;> rw [hr] at h
    · exact absurd h (by simp)
    case ok links =>
      simp only [Except.ok.injEq] at h
      subst h
      exact Nat.le_trans (List.length_filterMap_le _ _) (h1 w url links hr)
  · intro w arts h
    unfold Test2.fetch_articles at h
    cases hw : w.feed <;> rw [hw] at h
    · exact absurd h (by simp)
    case ok entries =>
      simp only [Except.ok.injEq] at h
      subst h
      exact Nat.le_trans (List.length_filterMap_le _ _) (List.length_take_le _ _)
  · intro w arts h
    unfold Pro1.fetch_articles at h
    cases hw : w.feed <;> rw [hw] at h
    · exact absurd h (by simp)
    case ok entries =>
      simp only [Except.ok.injEq] at h
      subst h
      exact Nat.le_trans (List.length_filterMap_le _ _) (List.length_take_le _ _)

/-- Witness for C9 at `L = 1`, applying all four conjuncts to concrete
worlds. -/
theorem c9_witness :
    (["http://x/politics/a".data] : List (List Char)).length ≤ 1 ∧
    (["t".data] : List (List Char)).length ≤ 1 ∧
    ([⟨"T".data, "para".data, "P".data⟩] : List ArticleDict).length ≤ 1 ∧
    ([⟨"T".data, "body".data, "P".data⟩] : List ArticleDict).length ≤ 1 :=
  ⟨(c9_candidate_limit 1 (by decide)).1 exWorldC9 "u".data _ (by rfl),
   (c9_candidate_limit 1 (by decide)).2.1 exWorldC9 "u".data _ (by rfl),
   (c9_candidate_limit 1 (by decide)).2.2.1 exFeedWorldC9 _ (by rfl),
   (c9_candidate_limit 1 (by decide)).2.2.2 exArticleWorldC9 _ (by rfl)⟩

/-- C1 — counterexample: with the configured `news_sites` and a world in which
only the CNN listing fetch raises, the whole run evaluates to that very
exception: it does not complete, the remaining outlets are not processed, and
no aggregate entry is produced for any outlet — refuting the claim that a
listing failure is confined to its outlet. -/
theorem c1_counterexample :
    Test1.collectData exWorldC1 exClassifier Test1.news_sites [] =
      .error "connection error" := by rfl

/-- C1 — amended: in `ProjectCodeTest1.py` the listing fetch
(`requests.get(url)`, line 24) is not guarded by any `try`/`except`, and
neither is the call to `extract_articles` in the top-level loop (line 44), so
a listing error for any configured outlet propagates and aborts the entire
run with that exception: no data at all is produced, not even for outlets
processed earlier.  Only per-article extraction and scoring errors are
isolated. -/
theorem c1_listing_error_aborts_run
    (world : List Char → Test1.PageWorld)
    (classifier : List Char → Except String (List Char × ℚ))
    (outlet url : List Char) (e : String)
    (hfail : (world url).listing = .error e) :
    ∀ (sites : List (List Char × List Char)) (data : List Test1.Row),
      (outlet, url) ∈ sites →
      ∃ e', Test1.collectData world classifier sites data = .error e' := by
  intro sites
  induction sites with
  | nil =>
    intro data hmem
    exact absurd hmem (List.not_mem_nil _)
  | cons p rest ih =>
    obtain ⟨o, u⟩ := p
    intro data hmem
    cases hx : Test1.extract_articles (world u) u 10 with
    | error e'' => exact ⟨e'', by simp [Test1.collectData, hx]⟩
    | ok texts =>
      rcases List.mem_cons.mp hmem with heq | hmem'
      · injection heq with ho hu
        subst ho
        subst hu
        rw [show Test1.extract_articles (world url) url 10 = .error e by
          simp [Test1.extract_articles, Test1.resolvedLinks, hfail]] at hx
        exact absurd hx (by simp)
      · obtain ⟨e', he'⟩ :=
          ih (data ++ texts.filterMap (Test1.scoreText classifier o)) hmem'
        exact ⟨e', by simp [Test1.collectData, hx, he']⟩

/-- Witness for C1's amended theorem: the CNN outlet of the configured
`news_sites` fails its listing fetch under `exWorldC1`, so the whole run
raises. -/
theorem c1_witness :
    ∃ e', Test1.collectData exWorldC1 exClassifier Test1.news_sites [] =
      .error e' :=
  c1_listing_error_aborts_run exWorldC1 exClassifier "CNN".data
    "https://edition.cnn.com/politics".data "connection error" (by rfl)
    Test1.news_sites [] (by decide)

/-- C2 — counterexample: Fox News is a configured outlet of `pro1.py`, and
under `exWorldC2` its feed succeeds with zero entries, so it contributes zero
scored articles; the run completes, yet `df.groupby('source')` produces no
key for Fox News — refuting the claim that every configured outlet appears in
the aggregate output. -/
theorem c2_counterexample :
    ("Fox News".data, "http://feeds.foxnews.com/foxnews/politics".data) ∈ Pro1.feeds ∧
    Pro1.collectRecords exWorldC2 Pro1.feeds [] = .ok exRecsC2 ∧
    Pro1.addSentiment exSia exRecsC2 = .ok exScoredC2 ∧
    "Fox News".data ∉ Pro1.groupKeys exScoredC2 :=
  ⟨by decide, by rfl, by rfl, by decide⟩

/-- C2 — amended: the keys of the aggregate output are exactly the outlets
that contributed at least one scored article; an outlet with zero scored
articles is omitted from the grouping (pandas `groupby` only sees values
present in the `source` column), rather than appearing with an empty
sequence. -/
theorem c2_groupby_keys_are_present_sources
    (rows : List Pro1.ScoredRec) (k : List Char) :
    k ∈ Pro1.groupKeys rows ↔ ∃ r ∈ rows, r.source = k := by
  simp [Pro1.groupKeys, List.mem_dedup, List.mem_map]

/-- C3 — counterexample: on scored data whose rows all come from one outlet,
the comparison step of `pro1.py` (lines 95–96) does invoke `f_oneway`, which
raises its arity `TypeError`; the error is unhandled, so the comparison ends
in an exception instead of a detected, recoverable omission of the verdict. -/
theorem c3_counterexample :
    Pro1.anovaResults (fun _ => 0) exSingleScored =
      .error "at least two inputs are required" := by rfl

/-- C3 — amended: the code performs no precondition check of its own — with
fewer than two outlet groups `f_oneway` itself is invoked and raises (first
conjunct), and the groups handed to it are never empty, because `groupby`
only forms groups for outlets actually present among the scored rows (second
conjunct): an outlet with zero scored articles is absent altogether rather
than excluded by any explicit check. -/
theorem c3_no_precondition_check (sf : ℚ → ℚ) (rows : List Pro1.ScoredRec) :
    ((Pro1.groupKeys rows).length < 2 →
      Pro1.anovaResults sf rows = .error "at least two inputs are required") ∧
    ∀ g ∈ Pro1.sentimentGroups rows, g ≠ [] := by
  constructor
  · intro h
    have hlen : (Pro1.sentimentGroups rows).length < 2 := by
      simpa [Pro1.sentimentGroups] using h
    unfold Pro1.anovaResults Pro1.f_oneway
    rw [if_pos hlen]
  · intro g hg
    simp only [Pro1.sentimentGroups, List.mem_map] at hg
    obtain ⟨k, hk, rfl⟩ := hg
    simp only [Pro1.groupKeys, List.mem_dedup, List.mem_map] at hk
    obtain ⟨r, hr, hrk⟩ := hk
    have hmem : r ∈ rows.filter (fun r => r.source == k) := by
      simp [List.mem_filter, hr, hrk]
    exact List.ne_nil_of_mem (List.mem_map_of_mem (·.sentiment) hmem)

/-- Witness for C3's amended theorem on the single-outlet data
`exSingleScored`. -/
theorem c3_witness :
    Pro1.anovaResults (fun _ => 0) exSingleScored =
        .error "at least two inputs are required" ∧
    Pro1.sentimentGroup exSingleScored "CNN".data ≠ [] :=
  ⟨(c3_no_precondition_check (fun _ => 0) exSingleScored).1 (by decide),
   (c3_no_precondition_check (fun _ => 0) exSingleScored).2 _
     (List.Mem.head _)⟩

/-- C4 — counterexample: under `exWorldC4` the single candidate article parses
successfully to the empty string; the run stores a scored row whose `text` is
empty, so an article with empty text reaches the sentiment scorer and the
final data — refuting the claimed non-empty-text invariant. -/
theorem c4_counterexample :
    Test1.collectData (fun _ => exWorldC4) exClassifier
        [("CNN".data, "https://edition.cnn.com/politics".data)] [] =
      .ok [⟨"CNN".data, [], "POSITIVE".data, 99 / 100⟩] := by rfl

/-- C4 — amended: the pipeline drops exactly the candidates whose extraction
raised; there is no emptiness check anywhere, so every successfully extracted
candidate — including one whose extracted text is empty — contributes its
1000-character-truncated text to the output that feeds the scorer and the
aggregation. -/
theorem c4_no_empty_text_filter (w : Test1.PageWorld) (url : List Char)
    (n : Nat) (ls : List (List Char)) (link raw : List Char)
    (hls : Test1.resolvedLinks w url n = .ok ls) (hmem : link ∈ ls)
    (hraw : w.article link = .ok raw) :
    ∃ texts, Test1.extract_articles w url n = .ok texts ∧
      truncateText 1000 raw ∈ texts := by
  refine ⟨ls.filterMap (fun link =>
    (w.article link).toOption.map (truncateText 1000)), ?_, ?_⟩
  · simp [Test1.extract_articles, hls]
  · exact List.mem_filterMap.mpr ⟨link, hmem, by rw [hraw]; rfl⟩

/-- Witness for C4's amended theorem: the empty extracted text of `exWorldC4`
survives normalization. -/
theorem c4_witness :
    ∃ texts, Test1.extract_articles exWorldC4 "u".data 10 = .ok texts ∧
      truncateText 1000 [] ∈ texts :=
  c4_no_empty_text_filter exWorldC4 "u".data 10
    ["http://e.cnn/politics/a".data] "http://e.cnn/politics/a".data []
    (by rfl) (by decide) (by rfl)

/-- C5 — counterexample: the feed variant of `pro1.py` performs no
deduplication — a feed listing the same entry twice yields two fetches of the
same link and two identical Articles, refuting the claim that duplicate
candidate links are deduplicated in every variant. -/
theorem c5_counterexample :
    Pro1.fetch_articles exWorldC5 20 =
      .ok [⟨"T".data, "body".data, "P".data⟩,
           ⟨"T".data, "body".data, "P".data⟩] := by rfl

/-- C5 — amended: only the page-scrape variant deduplicates, and it does so on
the raw candidate hrefs via `set()` before extraction (first conjunct: the
candidate list never contains duplicates); the feed variants take feed
entries verbatim, so an entry occurring twice is extracted twice and yields
one Article per occurrence (second conjunct). -/
theorem c5_dedup_only_in_page_scrape :
    (∀ hrefs : List (List Char), (Test1.candidateLinks hrefs).Nodup) ∧
    ∀ (w : Pro1.ArticleWorld) (entry : FeedEntry) (t : List Char)
      (es : List FeedEntry) (n : Nat),
      w.feed = .ok (entry :: entry :: es) → w.article entry.link = .ok t →
      ∃ rest, Pro1.fetch_articles w (n + 2) =
        .ok (⟨entry.title, t, entry.published⟩ ::
             ⟨entry.title, t, entry.published⟩ :: rest) := by
  constructor
  · intro hrefs
    exact List.nodup_dedup _
  · intro w entry t es n hfeed hart
    refine ⟨(es.take n).filterMap (fun e =>
      (w.article e.link).toOption.map (fun text =>
        ⟨e.title, text, e.published⟩)), ?_⟩
    simp [Pro1.fetch_articles, hfeed, List.take_succ_cons, List.filterMap_cons,
      hart, Except.toOption]

/-- Witness for C5's amended theorem: a concrete href list with a duplicate,
and the duplicated-entry feed world `exWorldC5` (with `n + 2 = 20`). -/
theorem c5_witness :
    (Test1.candidateLinks ["/politics/a".data, "/politics/a".data]).Nodup ∧
    ∃ rest, Pro1.fetch_articles exWorldC5 20 =
      .ok (⟨"T".data, "body".data, "P".data⟩ ::
           ⟨"T".data, "body".data, "P".data⟩ :: rest) :=
  ⟨c5_dedup_only_in_page_scrape.1 ["/politics/a".data, "/politics/a".data],
   c5_dedup_only_in_page_scrape.2 exWorldC5 dupEntry "body".data [] 18
     (by rfl) (by rfl)⟩

/-- C6 — counterexample: in the lexicon variant (`pro1.py` line 83) the scorer
runs inside `Series.apply` with no per-item `try`/`except`; with five
collected records where the scorer raises on the third, the whole scoring
step raises — there is no final scored set of four entries. -/
theorem c6_counterexample :
    Pro1.addSentiment siaC6 recsC6 = .error "scorer failure" := by rfl

/-- C6 — amended: per-item scoring isolation holds only in the classifier
variant, where a batch of five texts whose scorer raises on the third yields
exactly four scored rows (first conjunct); in the lexicon variant a scorer
exception on any record aborts the whole scoring step with an exception
(second conjunct). -/
theorem c6_scoring_isolation_per_variant :
    (∀ (c : List Char → Except String (List Char × ℚ))
       (o t1 t2 t3 t4 t5 : List Char) (e : String)
       (v1 v2 v4 v5 : List Char × ℚ),
       c (t1.take 512) = .ok v1 → c (t2.take 512) = .ok v2 →
       c (t3.take 512) = .error e →
       c (t4.take 512) = .ok v4 → c (t5.take 512) = .ok v5 →
       (([t1, t2, t3, t4, t5]).filterMap (Test1.scoreText c o)).length = 4) ∧
    ∀ (sia : List Char → Except String ℚ) (records : List Pro1.Rec)
      (r : Pro1.Rec) (e : String), r ∈ records → sia r.text = .error e →
      ∃ e', Pro1.addSentiment sia records = .error e' := by
  constructor
  · intro c o t1 t2 t3 t4 t5 e v1 v2 v4 v5 h1 h2 h3 h4 h5
    obtain ⟨l1, s1⟩ := v1
    obtain ⟨l2, s2⟩ := v2
    obtain ⟨l4, s4⟩ := v4
    obtain ⟨l5, s5⟩ := v5
    simp [Test1.scoreText, List.filterMap_cons, h1, h2, h3, h4, h5]
  · intro sia records r e hmem hsia
    exact mapExcept_error_of_mem _ records r e hmem (by rw [hsia]; rfl)

/-- Witness for C6's amended theorem: the classifier stub `cC6` raising on the
third of five texts leaves four rows, and the VADER stub `siaC6` raising on
the third of the five records `recsC6` aborts the lexicon scoring. -/
theorem c6_witness :
    ((["t1".data, "t2".data, "t3".data, "t4".data, "t5".data]).filterMap
        (Test1.scoreText cC6 "CNN".data)).length = 4 ∧
    ∃ e', Pro1.addSentiment siaC6 recsC6 = .error e' :=
  ⟨c6_scoring_isolation_per_variant.1 cC6 "CNN".data
     "t1".data "t2".data "t3".data "t4".data "t5".data "scorer failure"
     ("POSITIVE".data, 1) ("POSITIVE".data, 1) ("POSITIVE".data, 1)
     ("POSITIVE".data, 1) (by rfl) (by rfl) (by rfl) (by rfl) (by rfl),
   c6_scoring_isolation_per_variant.2 siaC6 recsC6
     ⟨"CNN".data, "c".data, "t3".data, "p".data⟩ "scorer failure"
     (by decide) (by rfl)⟩

/-- C10 — implicit claim about the classifier variant, confirmed in three
parts: (1) every text in the extractor's output is some raw extracted text
truncated to 1000 characters; (2) a scored row stores that text unchanged;
(3) the label and confidence attached by `scoreText` depend only on the first
512 characters of the text, so two texts agreeing there receive identical
labels and scores even when they differ beyond character 512. -/
theorem c10_stored_vs_scored_text :
    (∀ (w : Test1.PageWorld) (url : List Char) (n : Nat)
       (texts : List (List Char)) (t : List Char),
       Test1.extract_articles w url n = .ok texts → t ∈ texts →
       ∃ link raw, w.article link = .ok raw ∧ t = truncateText 1000 raw) ∧
    (∀ (c : List Char → Except String (List Char × ℚ)) (o t : List Char)
       (r : Test1.Row), Test1.scoreText c o t = some r → r.text = t) ∧
    ∀ (c : List Char → Except String (List Char × ℚ)) (o t₁ t₂ : List Char),
      t₁.take 512 = t₂.take 512 →
      (Test1.scoreText c o t₁).map (fun r => (r.label, r.score)) =
        (Test1.scoreText c o t₂).map (fun r => (r.label, r.score)) := by
  refine ⟨?_, ?_, ?_⟩
  · intro w url n texts t hok hmem
    unfold Test1.extract_articles at hok
    cases hr : Test1.resolvedLinks w url n <;> rw [hr] at hok
    · exact absurd hok (by simp)
    case ok links =>
      simp only [Except.ok.injEq] at hok
      subst hok
      obtain ⟨link, hlink, hf⟩ := List.mem_filterMap.mp hmem
      cases hart : w.article link <;> rw [hart] at hf
      · exact absurd hf (by simp [Except.toOption])
      case ok raw =>
        refine ⟨link, raw, hart, ?_⟩
        simpa [Except.toOption] using hf.symm
  · intro c o t r h
    unfold Test1.scoreText at h
    cases hc : c (t.take 512) <;> rw [hc] at h
    · exact absurd h (by simp)
    case ok v =>
      obtain ⟨l, s⟩ := v
      simp only [Option.some.injEq] at h
      subst h
      rfl
  · intro c o t₁ t₂ h
    unfold Test1.scoreText
    rw [h]
    cases hc : c (t₂.take 512) with
    | error e => rfl
    | ok v =>
      obtain ⟨l, s⟩ := v
      rfl

/-- Witness for C10: concrete instantiations of all three conjuncts. -/
theorem c10_witness :
    (∃ link raw, exWorldC9.article link = .ok raw ∧
      "t".data = truncateText 1000 raw) ∧
    (⟨"CNN".data, "t".data, "POSITIVE".data, 99 / 100⟩ : Test1.Row).text =
      "t".data ∧
    (Test1.scoreText exClassifier "CNN".data "a".data).map
        (fun r => (r.label, r.score)) =
      (Test1.scoreText exClassifier "CNN".data "a".data).map
        (fun r => (r.label, r.score)) :=
  ⟨c10_stored_vs_scored_text.1 exWorldC9 "u".data 1 ["t".data] "t".data
     (by rfl) (by decide),
   c10_stored_vs_scored_text.2.1 exClassifier "CNN".data "t".data
     ⟨"CNN".data, "t".data, "POSITIVE".data, 99 / 100⟩ (by rfl),
   c10_stored_vs_scored_text.2.2 exClassifier "CNN".data "a".data "a".data
     rfl⟩

end NewsBias
